import Mathlib

/-!
# Verification of the GameDemon repository

Shallow embedding of the GameDemon browser-game code (slot-machine engine
and state, auto-spin orchestration, panel UI toggling, inventory manager)
together with theorems settling the frozen claims about it.

JavaScript numbers are modelled as exact integers (`Int`/`Nat`) where the
source only ever holds integers, and as rationals (`Rat`) where fractional
constants such as `LUCK_BONUS_MULTIPLIER = 0.1` enter the arithmetic.
Symbols are the strings the source uses.  Randomness (`Math.random()`) is
passed in explicitly: integer draws in `[0, 10000)` for the probability
system, and a stream of display symbols for the cosmetic reel generator.
-/

namespace GameDemon

/-! ## SLOT_CONFIG (src/audioman/audio-manager-ui.js, lines 933-1172) -/

def SLOT_CONFIG_INITIAL_CREDITS : Int := 500
def SLOT_CONFIG_INITIAL_JACKPOT : Int := 1000
def SLOT_CONFIG_BASE_COST : Int := 10
def SLOT_CONFIG_MAX_LUCK : ℚ := 100
def SLOT_CONFIG_LUCK_BONUS_MULTIPLIER : ℚ := 1/10
def SLOT_CONFIG_TOTAL_BASE_WIN_PROBABILITY : ℚ := 1875

/-- `SLOT_CONFIG.SYMBOL_PROBABILITIES`: the eight symbols with their base
probabilities (per 10,000), in JavaScript object-literal order. -/
def SYMBOL_PROBABILITIES : List (String × ℚ) :=
  [("🍒", 800), ("🍋", 500), ("🍊", 300), ("🍇", 150),
   ("🍓", 80), ("💎", 30), ("🎰", 10), ("🌟", 5)]

structure Payout where
  basePayout : Int
  payoutName : String
  isJackpot : Bool
deriving DecidableEq, Repr

/-- `SLOT_CONFIG.PAYOUTS`.  JavaScript object lookup yields `undefined` for
keys outside the table; the engine only ever looks up one of the eight
symbols, and the catch-all branch returns a zero payout. -/
def PAYOUTS : String → Payout
  | "🍒" => ⟨10, "Cherry Win!", false⟩
  | "🍋" => ⟨25, "Lemon Lucky!", false⟩
  | "🍊" => ⟨50, "Orange Crush!", false⟩
  | "🍇" => ⟨80, "Grape Great!", false⟩
  | "🍓" => ⟨200, "Strawberry Super!", false⟩
  | "💎" => ⟨400, "Diamond Delight!", false⟩
  | "🎰" => ⟨750, "Slot Machine Mania!", false⟩
  | "🌟" => ⟨1000, "MEGA JACKPOT!", true⟩
  | _ => ⟨0, "", false⟩

/-! ## Winning-symbol selection
(src/slots-2/game-engine.js `GameEngine.selectWinningSymbol`, lines 77-100,
and src/unnamed/part_000 `PaytableManager.selectWinningSymbol`, lines 193-219).

The adjusted probability of a symbol with base probability `p` at luck bonus
`lb` is `p + lb * (p / TOTAL_BASE_WIN_PROBABILITY)`, exactly as both sources
compute it inside their loops. -/

def adjustedProbability (luckBonus p : ℚ) : ℚ :=
  p + luckBonus * (p / SLOT_CONFIG_TOTAL_BASE_WIN_PROBABILITY)

/-- The cumulative-probability loop shared (textually) by both generators:
walk the probability table keeping a running total, returning the first
symbol whose running total strictly exceeds the draw. -/
def selectLoop (luckBonus r : ℚ) : List (String × ℚ) → ℚ → Option String
  | [], _ => none
  | (s, p) :: rest, cum =>
    let cum' := cum + adjustedProbability luckBonus p
    if r < cum' then some s else selectLoop luckBonus r rest cum'

/-- `GameEngine.selectWinningSymbol` (src/slots-2/game-engine.js, lines
77-100), with the random draw `r` passed explicitly.  Falls back to `"🍒"`
when the loop exhausts the table. -/
def GameEngine.selectWinningSymbol (luckMeter : ℚ) (r : ℕ) : String :=
  let luckBonus := luckMeter * SLOT_CONFIG_LUCK_BONUS_MULTIPLIER * 100
  (selectLoop luckBonus (r : ℚ) SYMBOL_PROBABILITIES 0).getD "🍒"

/-- The legacy fallback string at src/unnamed/part_000, line 218.  The file's
bytes there decode to the three characters U+00F0, U+0178, U+2019 (a
mojibake corruption of the cherry emoji), which is what the JavaScript
string literal contains. -/
def legacyFallbackSymbol : String :=
  ⟨[Char.ofNat 0xF0, Char.ofNat 0x178, Char.ofNat 0x2019]⟩

/-- `PaytableManager.selectWinningSymbol` (src/unnamed/part_000, lines
193-219): identical loop, but its fallback returns the corrupted literal. -/
def PaytableManager.selectWinningSymbol (luckMeter : ℚ) (r : ℕ) : String :=
  let luckBonus := luckMeter * SLOT_CONFIG_LUCK_BONUS_MULTIPLIER * 100
  (selectLoop luckBonus (r : ℚ) SYMBOL_PROBABILITIES 0).getD legacyFallbackSymbol

/-- `GameEngine.calculateTotalWinChance` (src/slots-2/game-engine.js, lines
70-75). -/
def GameEngine.calculateTotalWinChance (luckMeter : ℚ) : ℚ :=
  min (SLOT_CONFIG_TOTAL_BASE_WIN_PROBABILITY +
        luckMeter * SLOT_CONFIG_LUCK_BONUS_MULTIPLIER * 100) 9500

/-- `PaytableManager.calculateTotalWinChance` (src/unnamed/part_000, lines
179-190); `slotMachinePresent` models the `if (!this.slotMachine)` guard. -/
def PaytableManager.calculateTotalWinChance
    (slotMachinePresent : Bool) (luckMeter : ℚ) : ℚ :=
  if slotMachinePresent then
    min (SLOT_CONFIG_TOTAL_BASE_WIN_PROBABILITY +
          luckMeter * SLOT_CONFIG_LUCK_BONUS_MULTIPLIER * 100) 9500
  else SLOT_CONFIG_TOTAL_BASE_WIN_PROBABILITY

/-! ## Specification-side formulation of the selection (for claim C1):
running sums of the adjusted probabilities, first index whose running sum
exceeds the draw. -/

/-- Running sums of the adjusted probabilities of the table, in order. -/
def runningSums (luckMeter : ℚ) : List ℚ :=
  let luckBonus := luckMeter * SLOT_CONFIG_LUCK_BONUS_MULTIPLIER * 100
  ((SYMBOL_PROBABILITIES.map fun sp => adjustedProbability luckBonus sp.2).scanl
    (· + ·) 0).tail

/-- Index of the first entry strictly exceeding `r`, if any. -/
def firstExceeding (r : ℚ) : List ℚ → Option ℕ
  | [] => none
  | c :: cs => if r < c then some 0 else (firstExceeding r cs).map (· + 1)

/-- The spec's description of the generator: the first symbol, in table
order, at which the running sum of adjusted probabilities first exceeds the
draw; `"🍒"` if the draw is not below the total. -/
def specSelectWinningSymbol (luckMeter : ℚ) (r : ℕ) : String :=
  match firstExceeding (r : ℚ) (runningSums luckMeter) with
  | some i => ((SYMBOL_PROBABILITIES.map Prod.fst).getD i "🍒")
  | none => "🍒"

/-! ## Game state (src/slots-2/game-state.js) -/

structure SymbolUpgrades where
  cherry : ℕ
  lemon : ℕ
  orange : ℕ
  grape : ℕ
  strawberry : ℕ
  diamond : ℕ
  slotSym : ℕ
  star : ℕ
deriving DecidableEq, Repr

structure LuckUpgrades where
  LUCK_GAIN : ℕ
  LUCK_RETENTION : ℕ
  MAX_LUCK : ℕ
deriving DecidableEq, Repr

structure MultiplierUpgrades where
  COMBO_POWER : ℕ
  MAX_MULTIPLIER : ℕ
deriving DecidableEq, Repr

structure Upgrades where
  symbols : SymbolUpgrades
  luck : LuckUpgrades
  multiplier : MultiplierUpgrades
deriving DecidableEq, Repr

/-- The mutable fields of a `GameState` object (src/slots-2/game-state.js).
`canAffordSpinOwn` models whether the object carries an *own* property named
`canAffordSpin` (a boolean) shadowing the prototype method of the same name:
a freshly constructed state has none; `deserialize`'s `Object.assign` with
serialized data installs one. -/
structure GameState where
  credits : Int
  jackpot : Int
  multiplier : Int
  luckMeter : ℚ
  totalSpins : ℕ
  totalWins : ℕ
  winStreak : ℕ
  biggestWin : Int
  jackpots : ℕ
  comboCount : ℕ
  comboMultiplier : ℚ
  upgrades : Upgrades
  canAffordSpinOwn : Option Bool
deriving DecidableEq, Repr

/-- The fresh state `GameState.reset` produces (lines 8-50). -/
def GameState.resetState : GameState where
  credits := SLOT_CONFIG_INITIAL_CREDITS
  jackpot := SLOT_CONFIG_INITIAL_JACKPOT
  multiplier := 1
  luckMeter := 0
  totalSpins := 0
  totalWins := 0
  winStreak := 0
  biggestWin := 0
  jackpots := 0
  comboCount := 0
  comboMultiplier := 1
  upgrades := ⟨⟨0, 0, 0, 0, 0, 0, 0, 0⟩, ⟨0, 0, 0⟩, ⟨0, 0⟩⟩
  canAffordSpinOwn := none

/-- `GameState.getMaxLuck` (lines 82-84):
`SLOT_CONFIG.MAX_LUCK + this.upgrades.luck.MAX_LUCK * 25`. -/
def GameState.getMaxLuck (g : GameState) : ℚ :=
  SLOT_CONFIG_MAX_LUCK + (g.upgrades.luck.MAX_LUCK : ℚ) * 25

/-- `upgrades.symbols[symbol]` lookup (the eight emoji keys). -/
def symbolUpgradeLevel (u : SymbolUpgrades) : String → ℕ
  | "🍒" => u.cherry
  | "🍋" => u.lemon
  | "🍊" => u.orange
  | "🍇" => u.grape
  | "🍓" => u.strawberry
  | "💎" => u.diamond
  | "🎰" => u.slotSym
  | "🌟" => u.star
  | _ => 0

/-- `UPGRADE_SYSTEM.SYMBOL_UPGRADES[symbol].payoutMultiplier`
(src/audioman/audio-manager-ui.js, lines 1010-1067). -/
def symbolPayoutMultiplier : String → ℚ
  | "🍒" => 6/5
  | "🍋" => 13/10
  | "🍊" => 7/5
  | "🍇" => 3/2
  | "🍓" => 8/5
  | "💎" => 9/5
  | "🎰" => 2
  | "🌟" => 2
  | _ => 1

/-- `GameState.getUpgradedPayout` (src/slots-2/game-state.js, lines 192-204):
base payout, or `Math.floor(basePayout * payoutMultiplier ^ level)` once the
symbol has been upgraded. -/
def GameState.getUpgradedPayout (g : GameState) (symbol : String) : Int :=
  let basePayout := (PAYOUTS symbol).basePayout
  let upgradeLevel := symbolUpgradeLevel g.upgrades.symbols symbol
  if upgradeLevel = 0 then basePayout
  else ⌊(basePayout : ℚ) * (symbolPayoutMultiplier symbol) ^ upgradeLevel⌋

/-- `GameState.canAffordSpin` as defined on the prototype (lines 258-260). -/
def canAffordSpinMethod (g : GameState) : Bool :=
  decide (g.credits ≥ SLOT_CONFIG_BASE_COST * g.multiplier)

/-- A JavaScript call `g.canAffordSpin()`: if an own boolean property shadows
the prototype method the call throws a TypeError (`none`); otherwise the
prototype method runs. -/
def callCanAffordSpin (g : GameState) : Option Bool :=
  match g.canAffordSpinOwn with
  | some _ => none
  | none => some (canAffordSpinMethod g)

/-- The plain-data object `GameState.serialize` returns (lines 262-280);
its `canAffordSpin` field snapshots the method's result. -/
structure SerializedState where
  credits : Int
  jackpot : Int
  multiplier : Int
  luckMeter : ℚ
  totalSpins : ℕ
  totalWins : ℕ
  winStreak : ℕ
  biggestWin : Int
  jackpots : ℕ
  comboCount : ℕ
  comboMultiplier : ℚ
  upgrades : Upgrades
  canAffordSpin : Bool
deriving DecidableEq, Repr

/-- `GameState.serialize` (lines 262-280).  It ends with
`canAffordSpin: this.canAffordSpin()`, a genuine method *call*: on an object
whose own `canAffordSpin` boolean shadows the method (after a deserialize)
that call throws, hence the `Option`. -/
def GameState.serialize (g : GameState) : Option SerializedState :=
  (callCanAffordSpin g).map fun b =>
    { credits := g.credits
      jackpot := g.jackpot
      multiplier := g.multiplier
      luckMeter := g.luckMeter
      totalSpins := g.totalSpins
      totalWins := g.totalWins
      winStreak := g.winStreak
      biggestWin := g.biggestWin
      jackpots := g.jackpots
      comboCount := g.comboCount
      comboMultiplier := g.comboMultiplier
      upgrades := g.upgrades
      canAffordSpin := b }

/-- `GameState.deserialize` (lines 282-285): `Object.assign(this, data)`
copies every data property — including the serialized `canAffordSpin`
boolean, which becomes an own property shadowing the prototype method —
then `emitStateChange()` calls `serialize()` on the mutated object.  The
returned flag records whether that trailing `serialize` call threw. -/
def GameState.deserialize (_g : GameState) (d : SerializedState) :
    GameState × Bool :=
  let g' : GameState :=
    { credits := d.credits
      jackpot := d.jackpot
      multiplier := d.multiplier
      luckMeter := d.luckMeter
      totalSpins := d.totalSpins
      totalWins := d.totalWins
      winStreak := d.winStreak
      biggestWin := d.biggestWin
      jackpots := d.jackpots
      comboCount := d.comboCount
      comboMultiplier := d.comboMultiplier
      upgrades := d.upgrades
      canAffordSpinOwn := some d.canAffordSpin }
  (g', (g'.serialize).isNone)

/-! ## Game engine (src/slots-2/game-engine.js)

`Math.random()` draws are passed in: `r1` decides win/loss, `r2` picks the
winning symbol, and `disp : ℕ → String` is the stream of display symbols
the cosmetic `getWeightedDisplaySymbol` would produce (its real-valued
weight walk is abstracted into the stream).  The losing-combination `while`
loop can in principle run forever on a constant stream, so it carries fuel
and the functions return `Option`. -/

structure SpinResult where
  rtype : String
  symbols : List String
  winSymbol : Option String
  payout : Option Payout
deriving DecidableEq, Repr

/-- The replacement loop inside `generateLosingCombination` (lines 109-111):
keep redrawing the third symbol while all three are equal. -/
def fixThird (s0 s1 : String) (disp : ℕ → String) : ℕ → ℕ → Option String
  | _, 0 => none
  | i, fuel + 1 =>
    let s2 := disp i
    if s0 = s1 ∧ s1 = s2 then fixThird s0 s1 disp (i + 1) fuel else some s2

/-- `GameEngine.generateLosingCombination` (lines 102-114). -/
def generateLosingCombination (disp : ℕ → String) (fuel : ℕ) :
    Option (List String) :=
  let s0 := disp 0
  let s1 := disp 1
  let s2 := disp 2
  if s0 = s1 ∧ s1 = s2 then
    (fixThird s0 s1 disp 3 fuel).map fun s2' => [s0, s1, s2']
  else some [s0, s1, s2]

/-- The luck-jackpot result literal (lines 38-43). -/
def luckJackpotResult : SpinResult :=
  { rtype := "luck_jackpot"
    symbols := ["🌟", "🌟", "🌟"]
    winSymbol := some "🌟"
    payout := some (PAYOUTS "🌟") }

/-- `GameEngine.calculateSpinResult` (lines 34-68). -/
def GameEngine.calculateSpinResult (g : GameState) (r1 r2 : ℕ)
    (disp : ℕ → String) (fuel : ℕ) : Option SpinResult :=
  if g.luckMeter ≥ g.getMaxLuck then some luckJackpotResult
  else
    let totalWinChance := GameEngine.calculateTotalWinChance g.luckMeter
    if (r1 : ℚ) < totalWinChance then
      let winSymbol := GameEngine.selectWinningSymbol g.luckMeter r2
      some { rtype := "win"
             symbols := [winSymbol, winSymbol, winSymbol]
             winSymbol := some winSymbol
             payout := some (PAYOUTS winSymbol) }
    else
      (generateLosingCombination disp fuel).map fun symbols =>
        { rtype := "loss", symbols := symbols, winSymbol := none, payout := none }

/-- `GameEngine.calculatePayout` (lines 116-133). -/
def GameEngine.calculatePayout (result : SpinResult) (g : GameState) : Int :=
  if result.rtype = "loss" then 0
  else if ((result.payout.map Payout.isJackpot).getD false) = true ∨
      result.rtype = "luck_jackpot" then
    g.jackpot
  else
    let upgradedBasePayout := g.getUpgradedPayout ((result.winSymbol).getD "")
    let basePayout := upgradedBasePayout * SLOT_CONFIG_BASE_COST * g.multiplier
    let comboBonus := ⌊(basePayout : ℚ) * (g.comboMultiplier - 1)⌋
    basePayout + comboBonus

/-- `GameEngine.canSpin` (lines 136-139). -/
def GameEngine.canSpin (isSpinning : Bool) (g : GameState) : Bool :=
  !isSpinning && decide (g.credits ≥ SLOT_CONFIG_BASE_COST * g.multiplier)

/-- `GameEngine.getSpinCost` (lines 142-144). -/
def GameEngine.getSpinCost (g : GameState) : Int :=
  SLOT_CONFIG_BASE_COST * g.multiplier

/-- The value `processSpin` resolves with (lines 162-166). -/
structure SpinData where
  result : SpinResult
  payout : Int
  cost : Int
deriving DecidableEq, Repr

def processSpinError : String :=
  "Cannot spin - insufficient credits or already spinning"

/-- `GameEngine.processSpin` (lines 147-170).  The outer `Option` is
settlement: `none` means the call never settles (the losing-combination
loop ran out of fuel, i.e. span forever).  A settled call carries the
resolution or rejection together with the engine's `isSpinning` flag at
settlement time (the `finally` clears it on every path that entered the
`try`). -/
def GameEngine.processSpin (isSpinning : Bool) (g : GameState) (r1 r2 : ℕ)
    (disp : ℕ → String) (fuel : ℕ) :
    Option (Except String SpinData × Bool) :=
  if ¬ (GameEngine.canSpin isSpinning g = true) then
    some (Except.error processSpinError, isSpinning)
  else
    match GameEngine.calculateSpinResult g r1 r2 disp fuel with
    | none => none
    | some result =>
      some (Except.ok
        { result := result
          payout := GameEngine.calculatePayout result g
          cost := GameEngine.getSpinCost g }, false)

/-! ## Effect-threading view of the engine's calculators (for claim C9)

A minimal browser world: DOM/CSS state, pending timers, and localStorage.
`GameEngine.calculatePayout` (src/slots-2/game-engine.js, lines 116-133)
references none of `document`, `setTimeout`/`clearTimeout` or
`localStorage`, so its world-passing embedding leaves the world untouched
and its result is computed from the explicit arguments alone. -/

structure BrowserWorld where
  domClasses : List String
  pendingTimers : List ℕ
  localStorageMap : String → Option String

/-- `GameEngine.calculatePayout` threaded through the browser world. -/
def GameEngine.calculatePayoutIn (result : SpinResult) (g : GameState)
    (w : BrowserWorld) : Int × BrowserWorld :=
  (GameEngine.calculatePayout result g, w)

/-! ## Auto-spin scheduling (src/unnamed/part_001, `EnhancedSlotMachine`)

The orchestrator's auto-spin machinery as a transition system over the
single-threaded event loop.  `autoSpinTimeout` is the field holding the
last `setTimeout` id (it stays set, stale, after the timer fires — the
callback never nulls it); `timerPending` is whether a scheduled auto-spin
timer is actually pending.  `scheduleAutoSpin` (lines 563-570) first calls
`cancelAutoSpin` (lines 572-577), so at most one timer is pending. -/

structure AutoSpinState where
  autoSpinActive : Bool
  autoSpinTimeout : Bool
  timerPending : Bool
deriving DecidableEq, Repr

/-- `cancelAutoSpin` (lines 572-577): clear the pending timer and null the
field. -/
def cancelAutoSpin (s : AutoSpinState) : AutoSpinState :=
  { s with autoSpinTimeout := false, timerPending := false }

/-- `scheduleAutoSpin` (lines 563-570): cancel, then arm a fresh timer. -/
def scheduleAutoSpin (s : AutoSpinState) : AutoSpinState :=
  { cancelAutoSpin s with autoSpinTimeout := true, timerPending := true }

/-- The event-loop turns that touch the auto-spin machinery.
`timerFires` is the scheduled callback running (its argument is
`gameState.canAffordSpin()` at that moment); `spinSettles` is the tail of
`handleSpinRequest` (lines 427-430) after a spin completes;
`toggled` is the `auto_spin_toggled` handler (lines 349-356);
`errorHandled` is `handleGameError` (lines 586-591); `resetGame`
(lines 606-611) behaves identically to it for this state. -/
inductive AutoSpinEvent where
  | toggled (active : Bool)
  | timerFires (canAfford : Bool)
  | spinSettles (canAfford : Bool)
  | errorHandled
deriving DecidableEq, Repr

/-- One event-loop turn: the successor state, and whether this turn's
auto-spin callback emitted `GAME_EVENTS.SPIN_STARTED` (the callback guard
at line 566 requires `autoSpinActive && canAffordSpin()`). -/
def autoSpinStep (s : AutoSpinState) : AutoSpinEvent → AutoSpinState × Bool
  | .toggled active =>
    let s := { s with autoSpinActive := active }
    (if active then scheduleAutoSpin s else cancelAutoSpin s, false)
  | .timerFires canAfford =>
    if s.timerPending then
      ({ s with timerPending := false },
        s.autoSpinActive && canAfford)
    else (s, false)
  | .spinSettles canAfford =>
    (if s.autoSpinActive && canAfford then scheduleAutoSpin s else s, false)
  | .errorHandled =>
    ({ cancelAutoSpin s with autoSpinActive := false }, false)

/-- Whether any turn of the trace emits `SPIN_STARTED` from the auto-spin
timer. -/
def autoSpinTraceEmits (s : AutoSpinState) : List AutoSpinEvent → Bool
  | [] => false
  | e :: es =>
    let (s', emitted) := autoSpinStep s e
    emitted || autoSpinTraceEmits s' es

/-- Events that turn auto-spin back on. -/
def isToggleOn : AutoSpinEvent → Bool
  | .toggled true => true
  | _ => false

/-! ## Panel toggling (src/audioman/audio-manager-ui.js, `UIManager`)

`togglePanel` (lines 1718-1761) for the two panels that have elements,
`upgrades` and `stats`.  A panel's `style.display` string is its inline
display value; the code treats the panel as visible iff it is not
`"none"`. -/

inductive PanelType where
  | upgrades
  | stats
deriving DecidableEq, Repr

structure PanelUIState where
  upgradesDisplay : String
  statsDisplay : String
  upgradesBtnActive : Bool
  statsBtnActive : Bool
  activePanel : Option PanelType
deriving DecidableEq, Repr

def panelDisplay (st : PanelUIState) : PanelType → String
  | .upgrades => st.upgradesDisplay
  | .stats => st.statsDisplay

def setPanelDisplay (st : PanelUIState) : PanelType → String → PanelUIState
  | .upgrades, d => { st with upgradesDisplay := d }
  | .stats, d => { st with statsDisplay := d }

def setBtnActive (st : PanelUIState) : PanelType → Bool → PanelUIState
  | .upgrades, b => { st with upgradesBtnActive := b }
  | .stats, b => { st with statsBtnActive := b }

/-- `UIManager.togglePanel` (lines 1718-1761): close the other active panel
if any, then toggle the requested panel's display, button state and
`activePanel`. -/
def togglePanel (st : PanelUIState) (p : PanelType) : PanelUIState :=
  let isVisible := panelDisplay st p ≠ "none"
  let st :=
    match st.activePanel with
    | some q =>
      if q ≠ p then setBtnActive (setPanelDisplay st q "none") q false else st
    | none => st
  let st := setPanelDisplay st p (if isVisible then "none" else "block")
  let st := setBtnActive st p (!isVisible)
  { st with activePanel := if isVisible then none else some p }

/-- A panel counts as displayed when its inline display is not `"none"`,
matching the code's own visibility test at line 1728. -/
def panelDisplayed (st : PanelUIState) (p : PanelType) : Prop :=
  panelDisplay st p ≠ "none"

/-- The toggle-state-machine invariant: `activePanel` names the single
displayed panel when one is open, and no panel is displayed when it is
`null`. -/
def panelInvariant (st : PanelUIState) : Prop :=
  match st.activePanel with
  | some PanelType.upgrades =>
    st.upgradesDisplay = "block" ∧ st.statsDisplay = "none"
  | some PanelType.stats =>
    st.statsDisplay = "block" ∧ st.upgradesDisplay = "none"
  | none => st.upgradesDisplay = "none" ∧ st.statsDisplay = "none"

/-! ## Inventory (src/inventory/inventory-manager.js)

The `InventoryItem` class itself is not under src/ — only its callers are
(`inventory-manager.js` invokes `canStackWith`, `stackWith`, `split`,
`use`, `toJSON` and `fromJSON` on it).  Its behaviour is therefore
modelled from the spec and from those call sites. -/

/-- Modelled from the spec: the repository's `InventoryItem` class is
missing from src/.  An item is the plain data record its template produces
(cf. `loadDefaultItemTemplates`): identity, classification, value, stack
quantity and stacking limits. -/
structure Item where
  templateId : String
  itemName : String
  itemType : String
  rarity : String
  value : Int
  quantity : ℕ
  stackable : Bool
  maxStackSize : ℕ
deriving DecidableEq, Repr

/-- Modelled from the spec: `InventoryItem.canStackWith` — two items stack
when both are stackable instances of the same template.  (Call sites:
`tryStackItem` line 298, `moveItem` line 372.) -/
def Item.canStackWith (a b : Item) : Bool :=
  a.stackable && b.stackable && a.templateId == b.templateId

/-- Modelled from the spec: `InventoryItem.stackWith` — absorb as much of
the other stack as the receiver's `maxStackSize` allows, returning the
updated receiver and the remaining quantity (`0` when fully absorbed),
which is how `tryStackItem` (lines 295-308) and `moveItem` (lines 372-378)
consume its result. -/
def Item.stackWith (a b : Item) : Item × ℕ :=
  let total := a.quantity + b.quantity
  let newQuantity := min total a.maxStackSize
  ({ a with quantity := newQuantity }, total - newQuantity)

/-- Modelled from the spec: `InventoryItem.split q` — carve `q` units off a
strictly larger stack, returning (remaining stack, removed stack); `null`
when the split is impossible.  (Call sites: `removeItem` line 331,
`moveItem` line 387.) -/
def Item.split (a : Item) (q : ℕ) : Option (Item × Item) :=
  if 0 < q ∧ q < a.quantity then
    some ({ a with quantity := a.quantity - q }, { a with quantity := q })
  else none

/-- Modelled from the spec: `InventoryItem.use q` — consume `q` units of a
consumable stack, reporting success and the updated item.  (Call site:
`useItem` lines 429-434, which drops the slot when the quantity reaches
zero.) -/
def Item.use (a : Item) (q : ℕ) : Bool × Item :=
  if a.itemType = "consumable" ∧ q ≤ a.quantity then
    (true, { a with quantity := a.quantity - q })
  else (false, a)

/-- Modelled from the spec: `InventoryItem.toJSON` returns the item's plain
data fields; an `Item` here already is that plain record. -/
def Item.toJSON (a : Item) : Item := a

/-- The record `saveInventory` (lines 720-746) writes: the serialized slots
plus `savedAt`/`version`/`operationCount` metadata. -/
structure SaveData where
  slots : List (Option Item)
  savedAt : ℕ
  version : String
  operationCount : ℕ
deriving DecidableEq, Repr

/-- The `InventoryManager` state the claims touch: the slot array, the
relevant options, the operation counter, and `localStorage` (a map from
keys to stored values). -/
structure InvState where
  slots : List (Option Item)
  maxSlots : ℕ
  autoStack : Bool
  storageKey : String
  operationCount : ℕ
  storage : String → Option SaveData

/-- `slots[i]` with JavaScript semantics: out-of-range reads yield
`undefined`, which the code's `!== null` / falsiness checks treat like an
empty slot (`none`). -/
def InvState.slotAt (st : InvState) (i : Int) : Option Item :=
  if h : 0 ≤ i ∧ i.toNat < st.slots.length then st.slots.get ⟨i.toNat, h.2⟩
  else none

/-- `slots[i] = v` for an in-range index. -/
def InvState.setSlot (st : InvState) (i : Int) (v : Option Item) : InvState :=
  { st with slots := st.slots.set i.toNat v }

/-- `trackOperation` (lines 1502-1505). -/
def InvState.trackOperation (st : InvState) : InvState :=
  { st with operationCount := st.operationCount + 1 }

/-- `saveInventory` (lines 720-746): serialize each slot via `toJSON`
(empty slots as `null`), add the metadata, and store the result in
`localStorage` under `options.storageKey`.  `now` is `Date.now()`. -/
def InvState.saveInventory (st : InvState) (now : ℕ) : InvState :=
  { st with storage := fun k =>
      if k = st.storageKey then
        some { slots := st.slots.map (Option.map Item.toJSON)
               savedAt := now
               version := "1.0.0"
               operationCount := st.operationCount }
      else st.storage k }

/-- `findEmptySlot` (lines 460-465): index of the first `null` slot, `-1`
when none. -/
def InvState.findEmptySlot (st : InvState) : Int :=
  match st.slots.findIdx? fun s => s.isNone with
  | some i => (i : Int)
  | none => -1

/-- The loop of `tryStackItem` (lines 296-306), threading the remaining
quantity through the slot list.  Returns the updated slots and `none` when
the item was fully stacked (the early `return` at line 301), or the
remaining quantity otherwise. -/
def tryStackLoop (item : Item) : List (Option Item) → ℕ →
    List (Option Item) × Option ℕ
  | [], qty => ([], some qty)
  | none :: rest, qty =>
    let (rest', q) := tryStackLoop item rest qty
    (none :: rest', q)
  | some slotItem :: rest, qty =>
    if slotItem.canStackWith item then
      let (slotItem', remaining) := slotItem.stackWith { item with quantity := qty }
      if remaining = 0 then (some slotItem' :: rest, none)
      else
        let (rest', q) := tryStackLoop item rest remaining
        (some slotItem' :: rest', q)
    else
      let (rest', q) := tryStackLoop item rest qty
      (some slotItem :: rest', q)

/-- `tryStackItem` (lines 295-308): `none` in the second component means
`fullyStacked: true`; otherwise the remaining item is returned with its
reduced quantity (the loop body's `item.quantity = remaining`). -/
def InvState.tryStackItem (st : InvState) (item : Item) :
    InvState × Option Item :=
  match tryStackLoop item st.slots item.quantity with
  | (slots', none) => ({ st with slots := slots' }, none)
  | (slots', some q) => ({ st with slots := slots' }, some { item with quantity := q })

/-- `addItem` (lines 220-288) for an item instance (the string/template
branch resolves to an instance first).  Auto-stack when enabled and the
item is stackable; then place what remains in the preferred slot if it is
valid and free, else in the first empty slot; fail — leaving the dispatched
`inventory:full` event aside — when there is none. -/
def InvState.addItem (st : InvState) (item : Item) (preferredSlot : Int)
    (now : ℕ) : Bool × InvState :=
  let stacked : InvState × Option Item :=
    if st.autoStack && item.stackable then st.tryStackItem item
    else (st, some item)
  match stacked with
  | (st', none) =>
    let st' := st'.trackOperation
    (true, st'.saveInventory now)
  | (st', some item) =>
    let targetSlot :=
      if preferredSlot = -1 ∨ preferredSlot ≥ (st'.maxSlots : Int) ∨
          ¬ (st'.slotAt preferredSlot = none) then
        st'.findEmptySlot
      else preferredSlot
    if targetSlot = -1 then (false, st')
    else
      let st' := st'.setSlot targetSlot (some item)
      let st' := st'.trackOperation
      (true, st'.saveInventory now)

/-- `removeItem` (lines 316-351). -/
def InvState.removeItem (st : InvState) (slotIndex : Int) (quantity : Int)
    (now : ℕ) : Option Item × InvState :=
  if slotIndex < 0 ∨ slotIndex ≥ (st.maxSlots : Int) then (none, st)
  else
    match st.slotAt slotIndex with
    | none => (none, st)
    | some item =>
      if quantity = -1 ∨ quantity ≥ (item.quantity : Int) then
        let st' := (st.setSlot slotIndex none).trackOperation
        (some item, st'.saveInventory now)
      else
        match item.split quantity.toNat with
        | none => (none, st)
        | some (remaining, removed) =>
          let st' := (st.setSlot slotIndex (some remaining)).trackOperation
          (some removed, st'.saveInventory now)

/-- `moveItem` (lines 360-416).  Note the early `return true` for a
self-move at line 362, which performs no save. -/
def InvState.moveItem (st : InvState) (fromSlot toSlot : Int) (quantity : Int)
    (now : ℕ) : Bool × InvState :=
  if fromSlot = toSlot then (true, st)
  else if fromSlot < 0 ∨ fromSlot ≥ (st.maxSlots : Int) then (false, st)
  else if toSlot < 0 ∨ toSlot ≥ (st.maxSlots : Int) then (false, st)
  else
    match st.slotAt fromSlot with
    | none => (false, st)
    | some sourceItem =>
      let st' :=
        match st.slotAt toSlot with
        | some targetItem =>
          if targetItem.canStackWith sourceItem then
            let (targetItem', remaining) := targetItem.stackWith sourceItem
            let st := st.setSlot toSlot (some targetItem')
            if remaining = 0 then st.setSlot fromSlot none
            else st.setSlot fromSlot (some { sourceItem with quantity := remaining })
          else
            (st.setSlot fromSlot (some targetItem)).setSlot toSlot (some sourceItem)
        | none =>
          if quantity = -1 ∨ quantity ≥ (sourceItem.quantity : Int) then
            (st.setSlot toSlot (some sourceItem)).setSlot fromSlot none
          else
            match sourceItem.split quantity.toNat with
            | some (remaining, splitItem) =>
              (st.setSlot toSlot (some splitItem)).setSlot fromSlot (some remaining)
            | none => st
      (true, (st'.trackOperation).saveInventory now)

/-- `useItem` (lines 424-454). -/
def InvState.useItem (st : InvState) (slotIndex : Int) (quantity : ℕ)
    (now : ℕ) : Bool × InvState :=
  match st.slotAt slotIndex with
  | none => (false, st)
  | some item =>
    let (success, item') := item.use quantity
    if success then
      let st' := st.setSlot slotIndex
        (if item'.quantity = 0 then none else some item')
      (true, (st'.trackOperation).saveInventory now)
    else (false, st)

/-- The comparison key for `sortInventory`'s comparator (lines 527-567). -/
def rarityOrder : String → ℕ
  | "common" => 0
  | "uncommon" => 1
  | "rare" => 2
  | "epic" => 3
  | "legendary" => 4
  | "artifact" => 5
  | _ => 0

/-- The comparator of `sortInventory` as a boolean "does not come after"
relation, direction included. -/
def itemKeyLE (sortBy : String) (a b : Item) : Bool :=
  match sortBy with
  | "type" => decide (a.itemType ≤ b.itemType)
  | "rarity" => decide (rarityOrder a.rarity ≤ rarityOrder b.rarity)
  | "value" => decide (a.value ≤ b.value)
  | "quantity" => decide (a.quantity ≤ b.quantity)
  | _ => decide (a.itemName ≤ b.itemName)

def itemLE (sortBy : String) (ascending : Bool) (a b : Item) : Bool :=
  if ascending then itemKeyLE sortBy a b else itemKeyLE sortBy b a

/-- Insertion of one item into an already-comparator-sorted list. -/
def sortInsert (le : Item → Item → Bool) (a : Item) : List Item → List Item
  | [] => [a]
  | b :: rest => if le a b then a :: b :: rest else b :: sortInsert le a rest

/-- `Array.prototype.sort` with the comparator, modelled as a sort by the
comparator's order. -/
def sortItems (le : Item → Item → Bool) : List Item → List Item
  | [] => []
  | a :: rest => sortInsert le a (sortItems le rest)

/-- `sortInventory` (lines 516-587): compact the non-null items in
comparator order into the front slots, clear the rest, then track and
save. -/
def InvState.sortInventory (st : InvState) (sortBy : String)
    (ascending : Bool) (now : ℕ) : InvState :=
  let items := st.slots.filterMap id
  let sorted := sortItems (itemLE sortBy ascending) items
  let slots' := sorted.map some ++
    List.replicate (st.slots.length - sorted.length) none
  let st' := { st with slots := slots' }
  (st'.trackOperation).saveInventory now

/-! ## Post-save storage contents

What a successful mutating operation is supposed to leave in localStorage
under the configured key. -/

/-- The inventory state's storage holds, under `storageKey`, exactly the
serialization of its current slots with the metadata of `saveInventory`
stamped at `now`. -/
def savedOK (st : InvState) (now : ℕ) : Prop :=
  st.storage st.storageKey =
    some { slots := st.slots.map (Option.map Item.toJSON)
           savedAt := now
           version := "1.0.0"
           operationCount := st.operationCount }

/-! ## Concrete instances used to evaluate the embedding -/

/-- The `basic_item` template (src/inventory/inventory-manager.js, lines
133-143) at a stack of 98. -/
def basicItem98 : Item :=
  { templateId := "basic_item", itemName := "Basic Item", itemType := "misc"
    rarity := "common", value := 1, quantity := 98, stackable := true
    maxStackSize := 99 }

/-- The `basic_item` template at a stack of 5. -/
def basicItem5 : Item := { basicItem98 with quantity := 5 }

/-- The `iron_sword` template (lines 155-166): not stackable. -/
def ironSword : Item :=
  { templateId := "iron_sword", itemName := "Iron Sword", itemType := "weapon"
    rarity := "common", value := 100, quantity := 1, stackable := false
    maxStackSize := 1 }

/-- A one-slot inventory (`options.maxSlots = 1`) with empty storage. -/
def emptyInv1 : InvState :=
  { slots := [none], maxSlots := 1, autoStack := true
    storageKey := "inventory-data", operationCount := 0
    storage := fun _ => none }

/-- A full one-slot inventory holding a partially filled basic-item stack. -/
def fullInv1 : InvState := { emptyInv1 with slots := [some basicItem98] }

/-- A full one-slot inventory holding an iron sword. -/
def swordInv1 : InvState := { emptyInv1 with slots := [some ironSword] }

/-- The game state after `serialize` + `deserialize` of a fresh state, if
the round trip settles. -/
def roundTrippedReset : Option (GameState × Bool) :=
  GameState.resetState.serialize.map GameState.resetState.deserialize

/-- A deterministic display-symbol stream for evaluating spins. -/
def cherryStream : ℕ → String := fun _ => "🍒"

/-- A browser world with one CSS class, one pending timer and empty
storage. -/
def worldA : BrowserWorld :=
  { domClasses := ["screen-shake"], pendingTimers := [7]
    localStorageMap := fun _ => none }

/-- A browser world with no CSS classes, no timers and one stored key. -/
def worldB : BrowserWorld :=
  { domClasses := [], pendingTimers := []
    localStorageMap := fun k => if k = "inventory-data" then some "x" else none }

/-- A concrete winning spin result (three cherries). -/
def cherryWinResult : SpinResult :=
  { rtype := "win", symbols := ["🍒", "🍒", "🍒"]
    winSymbol := some "🍒", payout := some (PAYOUTS "🍒") }

/-- Both-panels-closed UI state. -/
def closedPanels : PanelUIState :=
  { upgradesDisplay := "none", statsDisplay := "none"
    upgradesBtnActive := false, statsBtnActive := false, activePanel := none }

/-! ## Shared evaluation lemmas -/

/-- The engine can spin on a fresh state when not already spinning. -/
theorem canSpin_eval : GameEngine.canSpin false GameState.resetState = true := rfl

/-- With luck 0 and draw 0 the selection loop picks the cherry. -/
theorem select_eval : GameEngine.selectWinningSymbol 0 0 = "🍒" := by
  norm_num [GameEngine.selectWinningSymbol, selectLoop, SYMBOL_PROBABILITIES,
    adjustedProbability, SLOT_CONFIG_LUCK_BONUS_MULTIPLIER,
    SLOT_CONFIG_TOTAL_BASE_WIN_PROBABILITY]

/-- On a fresh state with both draws 0 the spin result is a cherry win. -/
theorem spinResult_eval :
    GameEngine.calculateSpinResult GameState.resetState 0 0 cherryStream 1 =
      some cherryWinResult := by
  rw [GameEngine.calculateSpinResult]
  rw [if_neg (by norm_num [GameState.resetState, GameState.getMaxLuck,
    SLOT_CONFIG_MAX_LUCK])]
  rw [if_pos (by norm_num [GameState.resetState,
    GameEngine.calculateTotalWinChance, SLOT_CONFIG_TOTAL_BASE_WIN_PROBABILITY,
    SLOT_CONFIG_LUCK_BONUS_MULTIPLIER])]
  simp only [GameState.resetState]
  rw [select_eval]
  rfl

/-- The cherry win on a fresh state pays 10 × BASE_COST × multiplier. -/
theorem payout_eval :
    GameEngine.calculatePayout cherryWinResult GameState.resetState = 100 := by
  rw [GameEngine.calculatePayout]
  rw [if_neg (by decide : ¬ (cherryWinResult.rtype = "loss"))]
  rw [if_neg (by decide : ¬ (((cherryWinResult.payout.map Payout.isJackpot).getD
    false) = true ∨ cherryWinResult.rtype = "luck_jackpot"))]
  show (10 : Int) * SLOT_CONFIG_BASE_COST * 1 +
    ⌊(((10 : Int) * SLOT_CONFIG_BASE_COST * 1 : Int) : ℚ) * ((1 : ℚ) - 1)⌋ = 100
  norm_num [SLOT_CONFIG_BASE_COST]

/-- Any state just saved satisfies the storage contract at the save time. -/
theorem saveInventory_savedOK (st : InvState) (now : ℕ) :
    savedOK (st.saveInventory now) now := by
  simp [savedOK, InvState.saveInventory]

/-! ## Claim C1 -/

/-- Claim C1: for luckMeter ≥ 0 and 0 ≤ r < 10000,
`GameEngine.selectWinningSymbol` returns the first symbol, in
`SYMBOL_PROBABILITIES` order, at which the running sum of adjusted
probabilities (base plus the luck bonus apportioned in proportion to
base / TOTAL_BASE_WIN_PROBABILITY) first exceeds the draw, and `"🍒"`
when the draw is not below the total running sum. -/
theorem selectWinningSymbol_is_cumulative_selection (luck : ℚ)
    (_hluck : 0 ≤ luck) (r : ℕ) (_hr : r < 10000) :
    GameEngine.selectWinningSymbol luck r = specSelectWinningSymbol luck r := by
  simp only [GameEngine.selectWinningSymbol, specSelectWinningSymbol, runningSums,
    SYMBOL_PROBABILITIES, List.map_cons, List.map_nil, List.scanl, List.tail_cons,
    selectLoop, firstExceeding]
  split_ifs <;> rfl

/-- Claim C1 witness: the hypotheses hold and the property is realized at
luck 0, draw 0. -/
theorem selectWinningSymbol_is_cumulative_selection_witness :
    0 ≤ (0 : ℚ) ∧ 0 < 10000 ∧
      GameEngine.selectWinningSymbol 0 0 = specSelectWinningSymbol 0 0 :=
  ⟨le_refl 0, by norm_num,
    selectWinningSymbol_is_cumulative_selection 0 (le_refl 0) 0 (by norm_num)⟩

/-! ## Claim C2 -/

/-- Claim C2: whenever luckMeter ≥ getMaxLuck() (= MAX_LUCK + 25 per
MAX_LUCK upgrade level), `calculateSpinResult` returns the luck-jackpot
result — type `"luck_jackpot"`, three stars, winSymbol `"🌟"`, payout
`PAYOUTS["🌟"]` — independently of every random draw. -/
theorem calculateSpinResult_luck_jackpot (g : GameState) (r1 r2 : ℕ)
    (disp : ℕ → String) (fuel : ℕ)
    (h : g.luckMeter ≥ g.getMaxLuck) :
    GameEngine.calculateSpinResult g r1 r2 disp fuel =
      some { rtype := "luck_jackpot", symbols := ["🌟", "🌟", "🌟"],
             winSymbol := some "🌟", payout := some (PAYOUTS "🌟") } := by
  simp [GameEngine.calculateSpinResult, h, luckJackpotResult]

/-- Claim C2 witness: a fresh state with luckMeter 100 meets the threshold
and yields the luck jackpot. -/
theorem calculateSpinResult_luck_jackpot_witness :
    ({ GameState.resetState with luckMeter := 100 } : GameState).luckMeter ≥
      ({ GameState.resetState with luckMeter := 100 } : GameState).getMaxLuck ∧
    GameEngine.calculateSpinResult { GameState.resetState with luckMeter := 100 }
        0 0 cherryStream 1 =
      some { rtype := "luck_jackpot", symbols := ["🌟", "🌟", "🌟"],
             winSymbol := some "🌟", payout := some (PAYOUTS "🌟") } := by
  have h : ({ GameState.resetState with luckMeter := 100 } : GameState).luckMeter ≥
      ({ GameState.resetState with luckMeter := 100 } : GameState).getMaxLuck := by
    norm_num [GameState.getMaxLuck, GameState.resetState, SLOT_CONFIG_MAX_LUCK]
  exact ⟨h, calculateSpinResult_luck_jackpot _ 0 0 cherryStream 1 h⟩

/-! ## Claim C3 -/

/-- Claim C3: `processSpin` rejects with
"Cannot spin - insufficient credits or already spinning" iff, at entry,
`isSpinning` is true or credits < BASE_COST × multiplier; a resolution
carries `{result, payout, cost}` with cost = BASE_COST × multiplier, the
payout computed by `calculatePayout` and the result by
`calculateSpinResult`; and if `isSpinning` was false at entry it is false
again whenever the call settles. -/
theorem processSpin_contract (isSpinning : Bool) (g : GameState) (r1 r2 : ℕ)
    (disp : ℕ → String) (fuel : ℕ) :
    ((∃ flag, GameEngine.processSpin isSpinning g r1 r2 disp fuel =
        some (Except.error processSpinError, flag)) ↔
      (isSpinning = true ∨ g.credits < SLOT_CONFIG_BASE_COST * g.multiplier)) ∧
    (∀ out flag, GameEngine.processSpin isSpinning g r1 r2 disp fuel =
        some (Except.ok out, flag) →
      out.cost = SLOT_CONFIG_BASE_COST * g.multiplier ∧
      out.payout = GameEngine.calculatePayout out.result g ∧
      GameEngine.calculateSpinResult g r1 r2 disp fuel = some out.result) ∧
    (isSpinning = false →
      ∀ res flag, GameEngine.processSpin isSpinning g r1 r2 disp fuel =
        some (res, flag) → flag = false) := by
  have hcan : (GameEngine.canSpin isSpinning g = true) ↔
      (isSpinning = false ∧ SLOT_CONFIG_BASE_COST * g.multiplier ≤ g.credits) := by
    simp [GameEngine.canSpin, ge_iff_le]
  by_cases hc : GameEngine.canSpin isSpinning g = true
  · rcases hcan.mp hc with ⟨hspin, hcred⟩
    rcases hres : GameEngine.calculateSpinResult g r1 r2 disp fuel with _ | res
    · refine ⟨?_, ?_, ?_⟩
      · constructor
        · rintro ⟨flag, hflag⟩
          simp [GameEngine.processSpin, hc, hres] at hflag
        · rintro (h | h)
          · exact absurd hspin (by simp [h])
          · exact absurd hcred (by simp [not_le.mpr h])
      · intro out flag hout
        simp [GameEngine.processSpin, hc, hres] at hout
      · intro _ res flag hsome
        simp [GameEngine.processSpin, hc, hres] at hsome
    · refine ⟨?_, ?_, ?_⟩
      · constructor
        · rintro ⟨flag, hflag⟩
          simp [GameEngine.processSpin, hc, hres] at hflag
        · rintro (h | h)
          · exact absurd hspin (by simp [h])
          · exact absurd hcred (by simp [not_le.mpr h])
      · intro out flag hout
        simp [GameEngine.processSpin, hc, hres] at hout
        rcases hout with ⟨hout, -⟩
        subst hout
        exact ⟨rfl, rfl, by simp⟩
      · intro _ res' flag hsome
        simp [GameEngine.processSpin, hc, hres] at hsome
        exact hsome.2
  · refine ⟨?_, ?_, ?_⟩
    · constructor
      · intro _
        rcases not_and_or.mp (fun hand => hc (hcan.mpr hand)) with h | h
        · exact Or.inl (by simpa using h)
        · exact Or.inr (by simpa using not_le.mp h)
      · intro _
        exact ⟨isSpinning, by simp [GameEngine.processSpin, hc]⟩
    · intro out flag hout
      simp [GameEngine.processSpin, hc] at hout
    · intro hspin res flag hsome
      simp [GameEngine.processSpin, hc] at hsome
      rw [← hsome.2, hspin]

/-- Claim C3 witness: a fresh, not-spinning state with draws 0 resolves to
the cherry win, its cost and payout match the contract, and the spinning
flag is false at settlement. -/
theorem processSpin_contract_witness :
    GameEngine.processSpin false GameState.resetState 0 0 cherryStream 1 =
      some (Except.ok { result := cherryWinResult, payout := 100, cost := 10 },
        false) ∧
    (10 : Int) = SLOT_CONFIG_BASE_COST * GameState.resetState.multiplier ∧
    (100 : Int) =
      GameEngine.calculatePayout cherryWinResult GameState.resetState ∧
    (false : Bool) = false := by
  have E : GameEngine.processSpin false GameState.resetState 0 0 cherryStream 1 =
      some (Except.ok { result := cherryWinResult, payout := 100, cost := 10 },
        false) := by
    simp only [GameEngine.processSpin, canSpin_eval, spinResult_eval, payout_eval]
    norm_num [GameEngine.getSpinCost, GameState.resetState, SLOT_CONFIG_BASE_COST,
      payout_eval]
  have H := processSpin_contract false GameState.resetState 0 0 cherryStream 1
  exact ⟨E, (H.2.1 _ false E).1, (H.2.1 _ false E).2.1, H.2.2 rfl _ false E⟩

/-! ## Claim C4 (corrected: `moveItem` self-moves return true without
saving) -/

/-- Claim C4 counterexample: a self-move returns true yet writes nothing —
with empty storage, `moveItem 0 0` succeeds and storage under
"inventory-data" is still empty afterwards. -/
theorem moveItem_selfmove_no_save :
    (emptyInv1.moveItem 0 0 (-1) 5).1 = true ∧
    (emptyInv1.moveItem 0 0 (-1) 5).2.storage "inventory-data" = none :=
  ⟨rfl, rfl⟩

/-- Claim C4 as amended: every successful mutating inventory operation —
`addItem` returning true, `removeItem` returning an item, `moveItem`
returning true with distinct slots, `useItem` returning true, and
`sortInventory` — ends by writing the current slots (items via `toJSON`,
empty slots as null, with savedAt/version/operationCount metadata) to
localStorage under `options.storageKey`. -/
theorem inventory_ops_save :
    (∀ (st : InvState) (item : Item) (pref : Int) (now : ℕ),
      (st.addItem item pref now).1 = true →
        savedOK (st.addItem item pref now).2 now) ∧
    (∀ (st : InvState) (i q : Int) (now : ℕ),
      (st.removeItem i q now).1 ≠ none →
        savedOK (st.removeItem i q now).2 now) ∧
    (∀ (st : InvState) (f t q : Int) (now : ℕ), f ≠ t →
      (st.moveItem f t q now).1 = true →
        savedOK (st.moveItem f t q now).2 now) ∧
    (∀ (st : InvState) (i : Int) (q now : ℕ),
      (st.useItem i q now).1 = true →
        savedOK (st.useItem i q now).2 now) ∧
    (∀ (st : InvState) (sortBy : String) (ascending : Bool) (now : ℕ),
      savedOK (st.sortInventory sortBy ascending now) now) := by
  refine ⟨?_, ?_, ?_, ?_, ?_⟩
  · intro st item pref now h
    rw [InvState.addItem] at h ⊢
    rcases hstacked : (if st.autoStack && item.stackable
        then st.tryStackItem item else (st, some item)) with ⟨st1, it⟩
    cases it with
    | none => exact saveInventory_savedOK _ _
    | some it =>
      rw [hstacked] at h
      dsimp only at h ⊢
      by_cases hc : (if pref = -1 ∨ pref ≥ (st1.maxSlots : Int) ∨
          ¬ st1.slotAt pref = none then st1.findEmptySlot else pref) = -1
      · rw [if_pos hc] at h
        exact absurd h (by simp)
      · rw [if_neg hc]
        exact saveInventory_savedOK _ _
  · intro st i q now h
    rw [InvState.removeItem] at h ⊢
    by_cases h1 : i < 0 ∨ i ≥ (st.maxSlots : Int)
    · rw [if_pos h1] at h
      exact absurd rfl h
    · rw [if_neg h1] at h ⊢
      rcases hslot : st.slotAt i with _ | item
      all_goals simp only [hslot] at h ⊢
      · exact absurd rfl h
      · by_cases h2 : q = -1 ∨ q ≥ (item.quantity : Int)
        · rw [if_pos h2] at h ⊢
          exact saveInventory_savedOK _ _
        · rw [if_neg h2] at h ⊢
          rcases hsplit : item.split q.toNat with _ | pair
          all_goals simp only [hsplit] at h ⊢
          · exact absurd rfl h
          · exact saveInventory_savedOK _ _
  · intro st f t q now hne h
    rw [InvState.moveItem] at h ⊢
    rw [if_neg hne] at h ⊢
    by_cases h1 : f < 0 ∨ f ≥ (st.maxSlots : Int)
    · rw [if_pos h1] at h
      exact absurd h (by simp)
    · rw [if_neg h1] at h ⊢
      by_cases h2 : t < 0 ∨ t ≥ (st.maxSlots : Int)
      · rw [if_pos h2] at h
        exact absurd h (by simp)
      · rw [if_neg h2] at h ⊢
        rcases hsrc : st.slotAt f with _ | src
        all_goals simp only [hsrc] at h ⊢
        · exact absurd h (by simp)
        · exact saveInventory_savedOK _ _
  · intro st i q now h
    rw [InvState.useItem] at h ⊢
    rcases hslot : st.slotAt i with _ | item
    all_goals simp only [hslot] at h ⊢
    · exact absurd h (by simp)
    · rcases huse : item.use q with ⟨success, item2⟩
      simp only [huse] at h ⊢
      cases success
      · simp at h
      · rw [if_pos rfl] at h ⊢
        exact saveInventory_savedOK _ _
  · intro st sortBy ascending now
    rw [InvState.sortInventory]
    exact saveInventory_savedOK _ _

/-- Claim C4 witness: adding a sword to an empty one-slot inventory
succeeds and leaves the serialized slots in storage. -/
theorem inventory_ops_save_witness :
    (emptyInv1.addItem ironSword (-1) 7).1 = true ∧
    savedOK (emptyInv1.addItem ironSword (-1) 7).2 7 :=
  ⟨rfl, inventory_ops_save.1 emptyInv1 ironSword (-1) 7 rfl⟩

/-! ## Claim C5 (code bug: serialize/deserialize round trip shadows the
`canAffordSpin` method) -/

/-- Claim C5: on a fresh state the round trip restores every serialized
field (the record-update form of the restored object says exactly that),
but the restored object carries the serialized boolean as an own
`canAffordSpin` property, so the deserialize's own `emitStateChange`
already throws (flag true) and a subsequent `canAffordSpin()` call throws
instead of returning the boolean the original returned. -/
theorem deserialize_shadows_canAffordSpin :
    roundTrippedReset =
      some ({ GameState.resetState with canAffordSpinOwn := some true }, true) ∧
    callCanAffordSpin GameState.resetState = some true ∧
    callCanAffordSpin
      { GameState.resetState with canAffordSpinOwn := some true } = none :=
  ⟨rfl, rfl, rfl⟩

/-! ## Claim C6 (corrected: auto-stacking can mutate the inventory before
the no-empty-slot failure) -/

/-- Claim C6 counterexample: a full one-slot inventory holding a 98-stack
absorbs one unit of an incoming 5-stack before `addItem` fails, so the
failed call has changed the slots. -/
theorem addItem_fail_mutates_on_stacking :
    (fullInv1.addItem basicItem5 (-1) 3).1 = false ∧
    (fullInv1.addItem basicItem5 (-1) 3).2.slots ≠ fullInv1.slots :=
  ⟨rfl, by decide⟩

/-- Claim C6 as amended: when auto-stacking is disabled or the item is not
stackable, an `addItem` that fails for lack of an empty slot leaves the
inventory (and the whole manager state) unchanged; with auto-stacking
enabled and a stackable item, matching stacks may absorb part of the
quantity before the failure. -/
theorem addItem_fail_atomic_without_stacking (st : InvState) (item : Item)
    (pref : Int) (now : ℕ)
    (h : st.autoStack = false ∨ item.stackable = false)
    (hfail : (st.addItem item pref now).1 = false) :
    (st.addItem item pref now).2 = st := by
  have hns : (st.autoStack && item.stackable) = false := by
    rcases h with h | h <;> simp [h]
  rw [InvState.addItem] at hfail ⊢
  rw [if_neg (by simp [hns])] at hfail ⊢
  dsimp only at hfail ⊢
  by_cases hc : (if pref = -1 ∨ pref ≥ (st.maxSlots : Int) ∨
      ¬ st.slotAt pref = none then st.findEmptySlot else pref) = -1
  · rw [if_pos hc]
  · rw [if_neg hc] at hfail
    exact absurd hfail (by simp)

/-- Claim C6 witness: adding a sword to a full one-slot inventory fails
and leaves the state untouched. -/
theorem addItem_fail_atomic_without_stacking_witness :
    (swordInv1.addItem ironSword (-1) 2).1 = false ∧
    (swordInv1.addItem ironSword (-1) 2).2 = swordInv1 :=
  ⟨rfl, addItem_fail_atomic_without_stacking swordInv1 ironSword (-1) 2
    (Or.inr rfl) rfl⟩

/-! ## Claim C7 -/

/-- Claim C7: the `auto_spin_toggled active=false` turn clears the pending
auto-spin timeout and nulls the field; the auto-spin timer never emits
SPIN_STARTED while `autoSpinActive` is false; and from any state with
auto-spin off, no trace free of toggle-on events ever emits SPIN_STARTED. -/
theorem autoSpin_cancel_safe :
    (∀ s, autoSpinStep s (AutoSpinEvent.toggled false) =
      (⟨false, false, false⟩, false)) ∧
    (∀ s e, (autoSpinStep s e).2 = true → s.autoSpinActive = true) ∧
    (∀ s evs, s.autoSpinActive = false →
      (∀ e, e ∈ evs → isToggleOn e = false) →
      autoSpinTraceEmits s evs = false) := by
  refine ⟨?_, ?_, ?_⟩
  · intro s
    simp [autoSpinStep, cancelAutoSpin]
  · intro s e hemit
    cases e with
    | toggled active => simp [autoSpinStep] at hemit
    | timerFires canAfford =>
      by_cases hp : s.timerPending
      · simp [autoSpinStep, hp] at hemit
        exact hemit.1
      · simp [autoSpinStep, hp] at hemit
    | spinSettles canAfford => simp [autoSpinStep] at hemit
    | errorHandled => simp [autoSpinStep] at hemit
  · intro s evs
    induction evs generalizing s with
    | nil => intro _ _; rfl
    | cons e es ih =>
      intro hoff hmem
      have hstay : ((autoSpinStep s e).1.autoSpinActive = false) ∧
          (autoSpinStep s e).2 = false := by
        cases e with
        | toggled active =>
          have : active = false := by
            have := hmem _ (List.mem_cons_self _ _)
            cases active
            · rfl
            · simp [isToggleOn] at this
          subst this
          simp [autoSpinStep, cancelAutoSpin, scheduleAutoSpin]
        | timerFires canAfford =>
          by_cases hp : s.timerPending <;>
            simp [autoSpinStep, hp, hoff]
        | spinSettles canAfford =>
          simp [autoSpinStep, hoff]
        | errorHandled =>
          simp [autoSpinStep, cancelAutoSpin]
      rw [autoSpinTraceEmits]
      have := ih (autoSpinStep s e).1 hstay.1
        (fun e' he' => hmem e' (List.mem_cons_of_mem _ he'))
      simp [hstay.2, this]

/-- Claim C7 witness: from the off state, a trace of a timer firing and a
spin settling emits no SPIN_STARTED. -/
theorem autoSpin_cancel_safe_witness :
    (⟨false, false, false⟩ : AutoSpinState).autoSpinActive = false ∧
    autoSpinTraceEmits ⟨false, false, false⟩
      [AutoSpinEvent.timerFires true, AutoSpinEvent.spinSettles true] = false :=
  ⟨rfl, autoSpin_cancel_safe.2.2 ⟨false, false, false⟩
    [AutoSpinEvent.timerFires true, AutoSpinEvent.spinSettles true]
    rfl (by decide)⟩

/-! ## Claim C8 (code bug: the legacy fallback literal is a mojibake
corruption of the cherry) -/

/-- Claim C8: at luckMeter 0, draw 1875 (which is ≥ the total cumulative
probability, so both loops fall through) the legacy generator returns its
corrupted fallback literal while the refactored engine returns `"🍒"`, and
the two strings differ; their `calculateTotalWinChance` functions do agree
at that luck meter. -/
theorem legacy_selectWinningSymbol_fallback_diverges :
    PaytableManager.selectWinningSymbol 0 1875 = legacyFallbackSymbol ∧
    GameEngine.selectWinningSymbol 0 1875 = "🍒" ∧
    legacyFallbackSymbol ≠ "🍒" ∧
    PaytableManager.calculateTotalWinChance true 0 =
      GameEngine.calculateTotalWinChance 0 := by
  refine ⟨?_, ?_, by decide,
    by norm_num [PaytableManager.calculateTotalWinChance,
      GameEngine.calculateTotalWinChance]⟩
  · norm_num [PaytableManager.selectWinningSymbol, selectLoop, SYMBOL_PROBABILITIES,
      adjustedProbability, SLOT_CONFIG_LUCK_BONUS_MULTIPLIER,
      SLOT_CONFIG_TOTAL_BASE_WIN_PROBABILITY]
  · norm_num [GameEngine.selectWinningSymbol, selectLoop, SYMBOL_PROBABILITIES,
      adjustedProbability, SLOT_CONFIG_LUCK_BONUS_MULTIPLIER,
      SLOT_CONFIG_TOTAL_BASE_WIN_PROBABILITY]

/-! ## Claim C9 (corrected: the engine's payout calculator is pure) -/

/-- Claim C9 counterexample: `calculatePayout` run in two observably
different browser worlds computes the same payout and leaves each world
exactly as it was — an operation that is a pure function of its explicit
arguments and game-state input alone. -/
theorem calculatePayout_pure_counterexample :
    GameEngine.calculatePayoutIn cherryWinResult GameState.resetState worldA =
      (100, worldA) ∧
    GameEngine.calculatePayoutIn cherryWinResult GameState.resetState worldB =
      (100, worldB) ∧
    worldA.domClasses ≠ worldB.domClasses := by
  refine ⟨?_, ?_, by decide⟩ <;>
    simp only [GameEngine.calculatePayoutIn, payout_eval]

/-- Claim C9 as amended: most of the repository's logic is coupled to
DOM/CSS manipulation, setTimeout sequencing and localStorage, but not all
of it — `GameEngine.calculatePayout` reads and writes no browser state:
its world-passing embedding leaves every world unchanged and its result
does not depend on the world. -/
theorem calculatePayout_is_pure (result : SpinResult) (g : GameState)
    (w w2 : BrowserWorld) :
    (GameEngine.calculatePayoutIn result g w).2 = w ∧
    (GameEngine.calculatePayoutIn result g w).1 =
      (GameEngine.calculatePayoutIn result g w2).1 ∧
    (GameEngine.calculatePayoutIn result g w).1 =
      GameEngine.calculatePayout result g :=
  ⟨rfl, rfl, rfl⟩

/-! ## Claim C10 -/

/-- Claim C10: `togglePanel` preserves the single-open-panel invariant,
never leaves both the upgrades and stats panels displayed, toggles the
requested panel's visibility, and closes the other active panel. -/
theorem togglePanel_inv (st : PanelUIState) (p : PanelType)
    (h : panelInvariant st) :
    panelInvariant (togglePanel st p) ∧
    ¬ (panelDisplayed (togglePanel st p) PanelType.upgrades ∧
        panelDisplayed (togglePanel st p) PanelType.stats) ∧
    (panelDisplayed (togglePanel st p) p ↔ ¬ panelDisplayed st p) ∧
    (∀ q, st.activePanel = some q → q ≠ p →
      panelDisplay (togglePanel st p) q = "none") := by
  rcases hA : st.activePanel with _ | q
  · rw [panelInvariant, hA] at h
    cases p <;>
      simp [togglePanel, panelInvariant, panelDisplayed, panelDisplay, hA,
        setPanelDisplay, setBtnActive, h.1, h.2]
  · rw [panelInvariant, hA] at h
    cases q <;> cases p <;>
      simp [togglePanel, panelInvariant, panelDisplayed, panelDisplay, hA,
        setPanelDisplay, setBtnActive, h.1, h.2]

/-- Claim C10 witness: from the fully closed state, toggling the upgrades
panel keeps the invariant and never reaches a both-open state. -/
theorem togglePanel_inv_witness :
    panelInvariant closedPanels ∧
    panelInvariant (togglePanel closedPanels PanelType.upgrades) ∧
    ¬ (panelDisplayed (togglePanel closedPanels PanelType.upgrades)
          PanelType.upgrades ∧
        panelDisplayed (togglePanel closedPanels PanelType.upgrades)
          PanelType.stats) := by
  have hinv : panelInvariant closedPanels := ⟨rfl, rfl⟩
  exact ⟨hinv, (togglePanel_inv closedPanels PanelType.upgrades hinv).1,
    (togglePanel_inv closedPanels PanelType.upgrades hinv).2.1⟩

end GameDemon
